import Mathlib

/-!
Shallow embedding of the telemetry analytics engine in `hub/analyzer.py`
(the repository core: online statistics, threshold and drift rules, a
once-trained multivariate outlier detector, a heuristic health predictor,
pairwise correlation discovery, and the MQTT ingest handler `on_message`).

Numeric values are embedded as rationals: the Python floats are modelled
exactly, eliding rounding.  Where the source takes a square root
(`OnlineStats.std`, the Pearson coefficient in `np.corrcoef`), the
embedding carries the exact radicand (variance, respectively the triple
of covariance and the two variances), and every comparison the source
performs on the rooted value is expressed by the equivalent comparison on
the radicand; theorems relate these to the real-valued square-root form.

The scikit-learn `StandardScaler`/`IsolationForest` pair is an external
library; it is embedded as an abstract model type `M` together with a
fitting function `fit` and a prediction function `predict` (returning the
decision `prediction == -1` and the continuous score), so that all claims
about the training state machine hold for an arbitrary model.
-/

set_option allowUnsafeReducibility true
attribute [semireducible] Rat.add Rat.sub Rat.mul Rat.inv Rat.ofScientific

namespace LabOS

/-- Association-list lookup keyed by strings, used to model the Python
dicts and defaultdicts of the analyzer (insertion order preserved). -/
def assocFind {β : Type} (k : String) : List (String × β) → Option β
  | [] => none
  | (k2, v) :: rest => if k2 = k then some v else assocFind k rest

/-- Update-or-insert on an association list.  Mirrors `defaultdict`
access: a missing key is created from the default `d` and inserted at the
end (Python dicts preserve insertion order). -/
def updAssoc {β : Type} (k : String) (f : β → β) (d : β) : List (String × β) → List (String × β)
  | [] => [(k, f d)]
  | (k2, v) :: rest => if k2 = k then (k2, f v) :: rest else (k2, v) :: updAssoc k f d rest

/-- `collections.deque(maxlen := m)` append: the new element goes to the
back, and the oldest element is evicted once the length exceeds `m`. -/
def dequeAppend {α : Type} (maxlen : Nat) (buf : List α) (x : α) : List α :=
  let b := buf ++ [x]
  if maxlen < b.length then b.drop (b.length - maxlen) else b

/-- Python slice `xs[-n:]`: the last `n` elements (all of them if fewer). -/
def lastN {α : Type} (n : Nat) (xs : List α) : List α :=
  xs.drop (xs.length - n)

/-- Python float modulo `a % b` for positive `b`: `a - b * floor (a / b)`
(`Rat.floor` is the floor function on the rationals, see
`Rat.floor_def`). -/
def pymod (a b : ℚ) : ℚ := a - b * (Rat.floor (a / b) : ℚ)

/-- `OnlineStats` (analyzer.py lines 20-46): Welford running count, mean
and sum of squared deviations `M2`, plus an EMA and a bounded history of
EMA values used for the slope.  The analyzer constructs every instance
with the default smoothing `ema_alpha = 0.2` and `slope_window = 30`. -/
structure OnlineStats where
  n : Nat := 0
  mean : ℚ := 0
  M2 : ℚ := 0
  ema : Option ℚ := none
  alpha : ℚ := 1/5
  hist : List ℚ := []
  deriving Repr, DecidableEq

/-- `OnlineStats.update` (lines 30-38): Welford single-pass update of
`n`, `mean`, `M2`, followed by the EMA update and the push of the new EMA
into the slope window (a deque of maxlen 30). -/
def OnlineStats.update (s : OnlineStats) (x : ℚ) : OnlineStats :=
  let n := s.n + 1
  let delta := x - s.mean
  let mean := s.mean + delta / n
  let M2 := s.M2 + delta * (x - mean)
  let ema := match s.ema with
    | none => x
    | some e => s.alpha * x + (1 - s.alpha) * e
  { s with n := n, mean := mean, M2 := M2, ema := some ema,
           hist := dequeAppend 30 s.hist ema }

/-- The radicand of `OnlineStats.std` (lines 40-42): the source returns
`(M2 / (n - 1)) ** 0.5` when `n > 1` and `0.0` otherwise; `varq` is the
exact value under the square root (with `varq = 0` in the `n <= 1` case,
so that the standard deviation is `Real.sqrt (varq s)` in every case). -/
def OnlineStats.varq (s : OnlineStats) : ℚ :=
  if 1 < s.n then s.M2 / ((s.n : ℚ) - 1) else 0

/-- `OnlineStats.slope` (lines 44-46): `(hist[-1] - hist[0]) / (len - 1)`
when the window holds at least two values, else `0.0`. -/
def OnlineStats.slope (s : OnlineStats) : ℚ :=
  if s.hist.length < 2 then 0
  else ((s.hist.getLast?.getD 0) - (s.hist.head?.getD 0)) / ((s.hist.length : ℚ) - 1)

/-- A decoded telemetry record: the Python dict delivered to the
analyzer, restricted to the keys the analyzer reads.  Every key may be
absent (`dict.get` semantics); keys the analyzer never reads are
irrelevant to its behaviour and are not modelled. -/
structure Record where
  device : Option String := none
  ts : Option ℚ := none
  voltage : Option ℚ := none
  voltage_avg : Option ℚ := none
  voltage_std : Option ℚ := none
  current : Option ℚ := none
  current_avg : Option ℚ := none
  current_std : Option ℚ := none
  deriving Repr, DecidableEq

/-- `IntelligentAnomalyDetector.extract_features` (lines 57-86).  For
each of `voltage`/`current` present: the raw value, its `_avg` (default
the raw value) and its `_std` (default `0.0`); then the two temporal
features `ts % 86400` and `ts % 3600` (with `time.time()`, here the
parameter `now`, as the default timestamp); finally
`hash(device) % 1000` with Python object hashing abstracted as the
parameter `pyhash` (`Int.emod` by the positive 1000 matches the sign
convention of the Python `%`). -/
def extract_features (now : ℚ) (pyhash : String → Int) (d : Record) : List ℚ :=
  (match d.voltage with
    | some v => [v, d.voltage_avg.getD v, d.voltage_std.getD 0]
    | none => []) ++
  (match d.current with
    | some v => [v, d.current_avg.getD v, d.current_std.getD 0]
    | none => []) ++
  [pymod (d.ts.getD now) 86400, pymod (d.ts.getD now) 3600] ++
  [(((pyhash (d.device.getD "unknown")) % 1000 : Int) : ℚ)]

/-- State of `IntelligentAnomalyDetector` (lines 51-55): the fitted flag,
the scaler-plus-isolation-forest pair once fitted (abstract type `M`;
`none` while the sklearn objects are still unfitted, which the source
never consults because every use is guarded by `is_fitted`), and the
rolling feature buffer (`deque(maxlen := 100)`). -/
structure DetectorState (M : Type) where
  is_fitted : Bool := false
  model : Option M := none
  feature_buffer : List (List ℚ) := []

/-- `IntelligentAnomalyDetector.detect_anomaly` together with the inlined
`_train_model` (lines 88-123): empty feature vectors short-circuit to
`(False, 0.0)`; otherwise the vector is buffered, the model is fitted
once the buffer holds at least 50 vectors and the detector is not yet
fitted (`_train_model` fits `StandardScaler` then `IsolationForest` on
the buffer contents — both folded into `fit`), and a fitted detector
returns the model decision and score for the new vector (`predict m f`
stands for `(prediction == -1, score_samples)` after scaling). -/
def detect_anomaly {M : Type} (fit : List (List ℚ) → M)
    (predict : M → List ℚ → Bool × ℚ) (now : ℚ) (pyhash : String → Int)
    (st : DetectorState M) (d : Record) : DetectorState M × (Bool × ℚ) :=
  let features := extract_features now pyhash d
  if features.length = 0 then (st, (false, 0))
  else
    let buf := dequeAppend 100 st.feature_buffer features
    let st1 : DetectorState M :=
      if 50 ≤ buf.length ∧ st.is_fitted = false then
        { is_fitted := true, model := some (fit buf), feature_buffer := buf }
      else
        { st with feature_buffer := buf }
    if st1.is_fitted then
      match st1.model with
      | some m => (st1, predict m features)
      | none => (st1, (false, 0))
    else (st1, (false, 0))

/-- Maintenance recommendations (`_generate_recommendations`, lines
162-178).  The source builds interpolated strings; they are embedded as
tagged values carrying the interpolated quantity (`int(...)` truncation
of the positive excess is `Int.floor`). -/
inductive Recommendation where
  | highFailureRisk
  | calibrationRecommended
  | calibrationOverdue (days : Int)
  deriving Repr, DecidableEq

/-- Per-device health record (`PredictiveMaintenance.__init__`, lines
128-134): the defaultdict default has zero drift, no calibration
timestamp, zero failure probability and no recommendations. -/
structure DeviceHealth where
  drift_rate : ℚ := 0
  last_calibration : Option ℚ := none
  failure_probability : ℚ := 0
  recommendations : List Recommendation := []
  deriving Repr, DecidableEq

/-- `calibration_intervals` lookup (lines 135-140, 173): per-device
interval in days with default 60. -/
def calibration_interval (device : String) : ℚ :=
  if device = "scope1" then 30
  else if device = "multimeter" then 90
  else if device = "power_supply" then 180
  else 60

/-- `PredictiveMaintenance._generate_recommendations` (lines 162-178),
evaluated at wall-clock time `now` (`time.time()`): high-risk entry when
`failure_probability > 0.7`, calibration entry when `drift_rate > 0.005`,
and an overdue entry when the days elapsed since `last_calibration or 0`
exceed the per-device interval. -/
def generate_recommendations (now : ℚ) (device : String) (drift_rate failure_probability : ℚ)
    (last_calibration : Option ℚ) : List Recommendation :=
  (if 7/10 < failure_probability then [Recommendation.highFailureRisk] else []) ++
  (if 1/200 < drift_rate then [Recommendation.calibrationRecommended] else []) ++
  (let days_since_cal := (now - last_calibration.getD 0) / 86400
   let cal_interval := calibration_interval device
   if cal_interval < days_since_cal then
     [Recommendation.calibrationOverdue (Rat.floor (days_since_cal - cal_interval))]
   else [])

/-- The two per-device `OnlineStats` trackers created by the analyzer
(line 243): `{"voltage": OnlineStats(), "current": OnlineStats()}`. -/
structure DeviceStats where
  voltage : OnlineStats := {}
  current : OnlineStats := {}
  deriving Repr, DecidableEq

/-- Drift-rate smoothing step of `update_health` (lines 146-149): when
the record has a voltage and the voltage tracker has `n > 10`,
`drift_rate = 0.9 * drift_rate + 0.1 * abs(slope)`; otherwise
unchanged. -/
def next_drift_rate (d : Record) (stats : DeviceStats) (h : DeviceHealth) : ℚ :=
  match d.voltage with
  | some _ =>
      if 10 < stats.voltage.n then
        (9/10) * h.drift_rate + (1/10) * |stats.voltage.slope|
      else h.drift_rate
  | none => h.drift_rate

/-- Failure-probability step of `update_health` (lines 151-155): a
bounded random walk driven by the updated drift rate — up by `0.01`
capped at `0.9` when `drift_rate > 0.01`, else down by `0.005` floored
at `0`. -/
def next_failure_probability (drift_rate fp : ℚ) : ℚ :=
  if 1/100 < drift_rate then min (9/10) (fp + 1/100)
  else max 0 (fp - 1/200)

/-- `PredictiveMaintenance.update_health` (lines 142-160): drift-rate
smoothing, the failure-probability random-walk step, and
recommendations recomputed fresh from the updated health values. -/
def update_health (now : ℚ) (device : String) (d : Record) (stats : DeviceStats)
    (h : DeviceHealth) : DeviceHealth :=
  { h with drift_rate := next_drift_rate d stats h,
           failure_probability :=
             next_failure_probability (next_drift_rate d stats h)
               h.failure_probability,
           recommendations :=
             generate_recommendations now device (next_drift_rate d stats h)
               (next_failure_probability (next_drift_rate d stats h)
                 h.failure_probability)
               h.last_calibration }

/-- One stored correlation sample (`add_data_point`, lines 188-193). -/
structure DataPoint where
  value : ℚ
  timestamp : ℚ
  deriving Repr, DecidableEq

/-- `CrossInstrumentCorrelator.correlation_data` (line 184): the nested
`defaultdict(lambda: defaultdict(list))`, device to metric to list of
points, with Python dict insertion order preserved. -/
abbrev CorrData := List (String × List (String × List DataPoint))

/-- `CrossInstrumentCorrelator.add_data_point` (lines 188-193): plain
list append on the per-(device, metric) series, with defaultdict
auto-creation of missing keys.  The source performs no eviction. -/
def add_data_point (cd : CorrData) (device metric : String) (value timestamp : ℚ) :
    CorrData :=
  updAssoc device
    (fun ms => updAssoc metric (fun pts => pts ++ [⟨value, timestamp⟩]) [] ms) [] cd

/-- The series stored for one (device, metric), empty when absent. -/
def seriesOf (cd : CorrData) (device metric : String) : List DataPoint :=
  (assocFind metric ((assocFind device cd).getD [])).getD []

/-- Aggregate sample count across every series (the generator-expression
sum at line 325). -/
def totalSamples (cd : CorrData) : Nat :=
  (cd.map (fun dm => (dm.2.map (fun ms => ms.2.length)).sum)).sum

/-- Exact representation of the value `np.corrcoef(xs, ys)[0, 1]`: the
real coefficient is `cov / (Real.sqrt vx * Real.sqrt vy)` where `cov` is
the sum of products of deviations from the means and `vx`, `vy` are the
sums of squared deviations (the `1/(n-1)` normalisations cancel in the
ratio).  Carrying the triple keeps the embedding exact and executable;
every comparison the source makes on the float coefficient is expressed
as the equivalent comparison on the triple. -/
structure PearsonRep where
  cov : ℚ
  vx : ℚ
  vy : ℚ
  deriving Repr, DecidableEq

/-- The representation of the float literal `0.0` returned on the guard
paths of `_calculate_correlation`. -/
def PearsonRep.zero : PearsonRep := ⟨0, 1, 1⟩

/-- Sum of a list of rationals. -/
def qsum (xs : List ℚ) : ℚ := xs.foldr (· + ·) 0

/-- The deviation triple of two equal-length value lists, as computed
inside `np.corrcoef`. -/
def pearsonRep (xs ys : List ℚ) : PearsonRep :=
  let n : ℚ := xs.length
  let mx := qsum xs / n
  let my := qsum ys / n
  { cov := qsum ((xs.zip ys).map (fun p => (p.1 - mx) * (p.2 - my)))
    vx := qsum (xs.map (fun x => (x - mx) ^ 2))
    vy := qsum (ys.map (fun y => (y - my) ^ 2)) }

/-- `|r| > t` on the exact representation, for a threshold `t ≥ 0`: true
iff both variances are positive and `cov ^ 2 > t ^ 2 * vx * vy`.  When a
variance vanishes `np.corrcoef` yields NaN (the warning is suppressed)
and every float comparison `abs(corr) > t` on it is false, matching the
`vx, vy > 0` guard. -/
def PearsonRep.absGt (p : PearsonRep) (t : ℚ) : Bool :=
  decide (0 < p.vx) && decide (0 < p.vy) && decide (t ^ 2 * (p.vx * p.vy) < p.cov ^ 2)

/-- `CrossInstrumentCorrelator._calculate_correlation` (lines 218-236):
`0.0` when either series has fewer than 10 points; otherwise the last 50
values of each series are taken and `0.0` is returned when those tails
differ in length, else their Pearson coefficient (`np.corrcoef` raises
no exception on equal-length numeric input, so the `except` arm is
unreachable). -/
def calculate_correlation (data1 data2 : List DataPoint) : PearsonRep :=
  if data1.length < 10 ∨ data2.length < 10 then PearsonRep.zero
  else
    let values1 := (lastN 50 data1).map (·.value)
    let values2 := (lastN 50 data2).map (·.value)
    if values1.length ≠ values2.length then PearsonRep.zero
    else pearsonRep values1 values2

/-- One entry of the `correlations` list built by `analyze_correlations`
(lines 206-213). -/
structure CorrEntry where
  device1 : String
  metric1 : String
  device2 : String
  metric2 : String
  correlation : PearsonRep
  strength : String
  deriving Repr, DecidableEq

/-- Ordered pairs `(devices[i], devices[j])` with `i < j`, as enumerated
by the nested loops at lines 200-201. -/
def allPairs {α : Type} : List α → List (α × α)
  | [] => []
  | x :: xs => xs.map (fun y => (x, y)) ++ allPairs xs

/-- `CrossInstrumentCorrelator.analyze_correlations` (lines 195-216):
for every unordered device pair (in insertion order) and every metric
combination across them, keep the pair when `abs(corr) > 0.7`, labelled
strong when `abs(corr) > 0.8` and moderate otherwise. -/
def analyze_correlations (cd : CorrData) : List CorrEntry :=
  (allPairs cd).flatMap (fun dd =>
    dd.1.2.flatMap (fun m1 =>
      dd.2.2.flatMap (fun m2 =>
        let corr := calculate_correlation m1.2 m2.2
        if corr.absGt (7/10) then
          [{ device1 := dd.1.1, metric1 := m1.1, device2 := dd.2.1, metric2 := m2.1,
             correlation := corr,
             strength := if corr.absGt (4/5) then "strong" else "moderate" }]
        else [])))

/-- Modelled from the spec (section 4.5): the claimed variant of
`_calculate_correlation` in which both last-50 tails are truncated to
the same count from their respective tails before the Pearson
coefficient is computed (the repository source instead returns `0.0`
whenever the two tails differ in length).  Used only to compare the
claim against the source behaviour. -/
def calculate_correlation_specTruncated (data1 data2 : List DataPoint) : PearsonRep :=
  if data1.length < 10 ∨ data2.length < 10 then PearsonRep.zero
  else
    let values1 := (lastN 50 data1).map (·.value)
    let values2 := (lastN 50 data2).map (·.value)
    let k := min values1.length values2.length
    pearsonRep (lastN k values1) (lastN k values2)

/-- Classification of an inbound MQTT payload by the two decoders tried
in `on_message` (lines 254-265): `json.loads` first, and on
`JSONDecodeError` a fallback `eval` of the payload text (the comment in
the source calls it backward compatibility); when both fail the message
is logged and dropped.  `validJson` carries the decoded record of a
payload that is a JSON object, `pythonLiteral` the record of a payload
that is not valid JSON but evaluates to a Python dict literal, and
`unparseable` stands for a payload rejected by both decoders. -/
inductive PayloadClass where
  | validJson (r : Record)
  | pythonLiteral (r : Record)
  | unparseable
  deriving Repr, DecidableEq

/-- The decode stage of `on_message`: the record handed to the rest of
the handler, or `none` when the payload is dropped at the parse
boundary. -/
def parsePayload : PayloadClass → Option Record
  | PayloadClass.validJson r => some r
  | PayloadClass.pythonLiteral r => some r
  | PayloadClass.unparseable => none

/-- The alert records built by `on_message` and handed to `c.publish`
plus `log_alert` (both sinks receive every alert, so one list models
publish-and-append).  The `statisticalAnomaly` fields `var` and `absdev`
carry `std` and `z` exactly: `std = Real.sqrt var` and
`z = absdev / Real.sqrt var`.  The `ai_anomaly` message string is a
fixed template of the device and is not modelled separately. -/
inductive Alert where
  | statisticalAnomaly (ts : ℚ) (device metric : String) (value mean var absdev : ℚ)
  | drift (ts : ℚ) (device metric : String) (slope ema : ℚ)
  | aiAnomaly (ts : ℚ) (device : String) (score : ℚ)
  | maintenanceRecommendation (ts : ℚ) (device : String) (health_score : ℚ)
      (recommendations : List Recommendation)
  | correlationDiscovery (ts : ℚ) (correlations : List CorrEntry)
  deriving Repr, DecidableEq

/-- The whole mutable state of the analyzer process: the per-device
stats map (line 243) and the three global detector objects
(lines 239-241). -/
structure AnalyzerState (M : Type) where
  stats : List (String × DeviceStats) := []
  detector : DetectorState M := {}
  health : List (String × DeviceHealth) := []
  corr : CorrData := []

/-- The analyzer state at process start. -/
def initialState (M : Type) : AnalyzerState M := {}

/-- Stats for a device, with the defaultdict default (line 243). -/
def statsOf {M : Type} (st : AnalyzerState M) (device : String) : DeviceStats :=
  (assocFind device st.stats).getD {}

/-- Health for a device, with the defaultdict default (lines 129-134). -/
def healthOf {M : Type} (st : AnalyzerState M) (device : String) : DeviceHealth :=
  (assocFind device st.health).getD {}

/-- The two metric keys iterated by the loop `for key in ("voltage",
"current")` at line 270. -/
inductive MetricKey where
  | voltage
  | current
  deriving Repr, DecidableEq

def MetricKey.name : MetricKey → String
  | MetricKey.voltage => "voltage"
  | MetricKey.current => "current"

def MetricKey.get (k : MetricKey) (d : Record) : Option ℚ :=
  match k with
  | MetricKey.voltage => d.voltage
  | MetricKey.current => d.current

def DeviceStats.getKey (ds : DeviceStats) (k : MetricKey) : OnlineStats :=
  match k with
  | MetricKey.voltage => ds.voltage
  | MetricKey.current => ds.current

def DeviceStats.setKey (ds : DeviceStats) (k : MetricKey) (s : OnlineStats) : DeviceStats :=
  match k with
  | MetricKey.voltage => { ds with voltage := s }
  | MetricKey.current => { ds with current := s }

/-- In-flight result of one `on_message` dispatch: the state mutated so
far, the alerts already constructed (each one published and logged), and
whether an exception has been raised.  The only raising operation on the
handler path is the subscription `d["ts"]` inside an alert dict literal,
which throws `KeyError` on a record without `ts`; the outer
`try/except` at line 336 then logs the error and abandons the rest of
the handler, keeping every state mutation already performed. -/
structure StepOut (M : Type) where
  state : AnalyzerState M
  alerts : List Alert
  aborted : Bool

/-- Constructing and emitting an alert whose dict literal reads
`d["ts"]`: on a record without `ts` the `KeyError` aborts the dispatch
before anything is published. -/
def emitWithTs {M : Type} (d : Record) (mk : ℚ → Alert) (o : StepOut M) : StepOut M :=
  match d.ts with
  | some t => { o with alerts := o.alerts ++ [mk t] }
  | none => { o with aborted := true }

/-- The statistical-anomaly guard of lines 280-283 on the post-update
tracker: the source computes `st = s.std` and tests
`s.n > 20 and st > 1e-9` and then `z = abs(val - s.mean) / st >= 3.0`;
on the exact radicand these are `varq > 1e-18` and
`(val - mean) ^ 2 >= 9 * varq` (squaring the nonnegative comparisons). -/
def statAnomalyFires (s : OnlineStats) (val : ℚ) : Bool :=
  decide (20 < s.n) && decide (1 / 10 ^ 18 < s.varq) &&
    decide (9 * s.varq ≤ (val - s.mean) ^ 2)

/-- The drift guard of lines 292-293 on the post-update tracker. -/
def driftFires (s : OnlineStats) : Bool :=
  decide (30 < s.n) && decide (1/500 < |s.slope|)

/-- One iteration of the metric loop of `on_message` (lines 270-299):
skip an absent metric; update the Welford tracker in place; append the
sample to the correlation series (timestamp defaulting to
`time.time()`, i.e. `now`); then the statistical-anomaly and drift
alerts, each of whose construction reads `d["ts"]`. -/
def processMetric {M : Type} (now : ℚ) (dev : String) (d : Record) (key : MetricKey)
    (o : StepOut M) : StepOut M :=
  if o.aborted then o else
  match key.get d with
  | none => o
  | some val =>
    let s := ((statsOf o.state dev).getKey key).update val
    let st1 := { o.state with
      stats := updAssoc dev (fun ds => ds.setKey key s) {} o.state.stats }
    let st2 := { st1 with
      corr := add_data_point st1.corr dev key.name val (d.ts.getD now) }
    let o1 : StepOut M := { o with state := st2 }
    let o2 :=
      if statAnomalyFires s val then
        emitWithTs d (fun t =>
          Alert.statisticalAnomaly t dev key.name val s.mean s.varq |val - s.mean|) o1
      else o1
    if o2.aborted then o2 else
    if driftFires s then
      emitWithTs d (fun t => Alert.drift t dev key.name s.slope (s.ema.getD 0)) o2
    else o2

/-- The AI anomaly block of `on_message` (lines 301-310): run
`detect_anomaly` (mutating the detector) and publish an `ai_anomaly`
alert when it flags the record.  A dispatch already aborted by an
earlier exception skips the block. -/
def aiStep {M : Type} (fit : List (List ℚ) → M)
    (predict : M → List ℚ → Bool × ℚ) (now : ℚ) (pyhash : String → Int)
    (d : Record) (dev : String) (o : StepOut M) : StepOut M :=
  if o.aborted then o else
  let da := detect_anomaly fit predict now pyhash o.state.detector d
  let o1 : StepOut M := { o with state := { o.state with detector := da.1 } }
  if da.2.1 then emitWithTs d (fun t => Alert.aiAnomaly t dev da.2.2) o1 else o1

/-- The predictive-maintenance block of `on_message` (lines 312-322):
update the device health in place and publish a
`maintenance_recommendation` alert when the recomputed recommendation
list is non-empty. -/
def maintenanceStep {M : Type} (now : ℚ) (d : Record) (dev : String)
    (o : StepOut M) : StepOut M :=
  if o.aborted then o else
  let h := update_health now dev d (statsOf o.state dev) (healthOf o.state dev)
  let o1 : StepOut M := { o with state := { o.state with
    health := updAssoc dev (fun _ => h) {} o.state.health } }
  if h.recommendations ≠ [] then
    emitWithTs d (fun t =>
      Alert.maintenanceRecommendation t dev (1 - h.failure_probability)
        h.recommendations) o1
  else o1

/-- The periodic correlation block of `on_message` (lines 324-334):
when the aggregate stored-sample count is a multiple of 100, recompute
all correlations and publish a `correlation_discovery` alert carrying
the first five entries when any survive. -/
def correlationStep {M : Type} (d : Record) (o : StepOut M) : StepOut M :=
  if o.aborted then o else
  if totalSamples o.state.corr % 100 = 0 then
    let correlations := analyze_correlations o.state.corr
    if correlations ≠ [] then
      emitWithTs d (fun t =>
        Alert.correlationDiscovery t (correlations.take 5)) o
    else o
  else o

/-- `on_message` (lines 253-338) after the decode stage, for one
decoded record: the metric loop, then the AI anomaly block, the
predictive-maintenance block and the periodic correlation block in
source order.  Every block skips itself once the dispatch is aborted,
which models the outer `try/except`: an exception raised in one block
abandons all later blocks while keeping the state mutations already
performed, and nothing more is published. -/
def processRecord {M : Type} (fit : List (List ℚ) → M)
    (predict : M → List ℚ → Bool × ℚ) (now : ℚ) (pyhash : String → Int)
    (st : AnalyzerState M) (d : Record) : AnalyzerState M × List Alert :=
  let dev := d.device.getD "unknown"
  let o :=
    correlationStep d
      (maintenanceStep now d dev
        (aiStep fit predict now pyhash d dev
          (processMetric now dev d MetricKey.current
            (processMetric now dev d MetricKey.voltage ⟨st, [], false⟩))))
  (o.state, o.alerts)

/-- `on_message` for one inbound payload: decode or drop, then process.
The returned list holds the alerts the dispatch published to
`lab/alerts` and appended to the per-day log. -/
def on_message {M : Type} (fit : List (List ℚ) → M)
    (predict : M → List ℚ → Bool × ℚ) (now : ℚ) (pyhash : String → Int)
    (st : AnalyzerState M) (p : PayloadClass) : AnalyzerState M × List Alert :=
  match parsePayload p with
  | none => (st, [])
  | some d => processRecord fit predict now pyhash st d

section Lemmas

lemma assocFind_updAssoc_self {β : Type} (k : String) (f : β → β) (d : β)
    (l : List (String × β)) :
    assocFind k (updAssoc k f d l) = some (f ((assocFind k l).getD d)) := by
  induction l with
  | nil => simp [updAssoc, assocFind]
  | cons hd tl ih =>
    obtain ⟨k2, v⟩ := hd
    by_cases h : k2 = k
    · simp [updAssoc, assocFind, h]
    · simp [updAssoc, assocFind, h, ih]

lemma assocFind_updAssoc_other {β : Type} (k k2 : String) (f : β → β) (d : β)
    (l : List (String × β)) (hne : k2 ≠ k) :
    assocFind k2 (updAssoc k f d l) = assocFind k2 l := by
  have hkk2 : k ≠ k2 := Ne.symm hne
  induction l with
  | nil => simp [updAssoc, assocFind, hkk2]
  | cons hd tl ih =>
    obtain ⟨k3, v⟩ := hd
    by_cases h : k3 = k
    · subst h
      simp [updAssoc, assocFind, hkk2]
    · simp [updAssoc, assocFind, h, ih]

lemma seriesOf_add_self (cd : CorrData) (device metric : String) (v t : ℚ) :
    seriesOf (add_data_point cd device metric v t) device metric =
      seriesOf cd device metric ++ [⟨v, t⟩] := by
  simp [seriesOf, add_data_point, assocFind_updAssoc_self]

lemma extract_features_length_pos (now : ℚ) (pyhash : String → Int) (d : Record) :
    0 < (extract_features now pyhash d).length := by
  simp [extract_features]

lemma detect_anomaly_unfitted_small {M : Type} (fit : List (List ℚ) → M)
    (predict : M → List ℚ → Bool × ℚ) (now : ℚ) (pyhash : String → Int)
    (st : DetectorState M) (d : Record) (hf : st.is_fitted = false)
    (hlt : (dequeAppend 100 st.feature_buffer (extract_features now pyhash d)).length < 50) :
    detect_anomaly fit predict now pyhash st d =
      ({ st with feature_buffer :=
          dequeAppend 100 st.feature_buffer (extract_features now pyhash d) },
        (false, 0)) := by
  have hne : ¬(extract_features now pyhash d).length = 0 := by
    have := extract_features_length_pos now pyhash d; omega
  have hC : ¬(50 ≤ (dequeAppend 100 st.feature_buffer
      (extract_features now pyhash d)).length ∧ st.is_fitted = false) :=
    fun hand => absurd hand.1 (by omega)
  simp only [detect_anomaly]
  rw [if_neg hne, if_neg hC]
  simp [hf]

lemma detect_anomaly_unfitted_large {M : Type} (fit : List (List ℚ) → M)
    (predict : M → List ℚ → Bool × ℚ) (now : ℚ) (pyhash : String → Int)
    (st : DetectorState M) (d : Record) (hf : st.is_fitted = false)
    (hge : 50 ≤ (dequeAppend 100 st.feature_buffer (extract_features now pyhash d)).length) :
    detect_anomaly fit predict now pyhash st d =
      ({ is_fitted := true,
         model := some (fit (dequeAppend 100 st.feature_buffer
           (extract_features now pyhash d))),
         feature_buffer := dequeAppend 100 st.feature_buffer
           (extract_features now pyhash d) },
        predict (fit (dequeAppend 100 st.feature_buffer (extract_features now pyhash d)))
          (extract_features now pyhash d)) := by
  have hne : ¬(extract_features now pyhash d).length = 0 := by
    have := extract_features_length_pos now pyhash d; omega
  have hC : 50 ≤ (dequeAppend 100 st.feature_buffer
      (extract_features now pyhash d)).length ∧ st.is_fitted = false := ⟨hge, hf⟩
  simp only [detect_anomaly]
  rw [if_neg hne, if_pos hC]
  simp

lemma detect_anomaly_fitted {M : Type} (fit : List (List ℚ) → M)
    (predict : M → List ℚ → Bool × ℚ) (now : ℚ) (pyhash : String → Int)
    (st : DetectorState M) (d : Record) (hf : st.is_fitted = true) :
    (detect_anomaly fit predict now pyhash st d).1.is_fitted = true ∧
    (detect_anomaly fit predict now pyhash st d).1.model = st.model ∧
    (detect_anomaly fit predict now pyhash st d).1.feature_buffer =
      dequeAppend 100 st.feature_buffer (extract_features now pyhash d) ∧
    (detect_anomaly fit predict now pyhash st d).2 =
      (match st.model with
        | some m => predict m (extract_features now pyhash d)
        | none => (false, 0)) := by
  have hne : ¬(extract_features now pyhash d).length = 0 := by
    have := extract_features_length_pos now pyhash d; omega
  have hC : ¬(50 ≤ (dequeAppend 100 st.feature_buffer
      (extract_features now pyhash d)).length ∧ st.is_fitted = false) := by
    rw [hf]; simp
  simp only [detect_anomaly]
  rw [if_neg hne, if_neg hC]
  cases hm : st.model with
  | some m => simp [hf, hm]
  | none => simp [hf, hm]

end Lemmas

section ClaimC5

/-- 51 samples appended to one (device, metric) series. -/
def corrStateC5 : CorrData :=
  (List.range 51).foldl (fun cd i => add_data_point cd "a" "voltage" (i : ℚ) 0) []

set_option maxHeartbeats 1000000 in
/-- Claim C5 counterexample: the source performs no eviction, so a
per-(device, metric) correlation series exceeds the claimed capacity of
50 — after 51 appends to one series its length is 51. -/
theorem C5_counterexample :
    50 < (seriesOf corrStateC5 "a" "voltage").length ∧
    (seriesOf corrStateC5 "a" "voltage").length = 51 := by
  decide

/-- Claim C5 (amended): `add_data_point` is a plain unbounded append —
after any sequence of appends to one (device, metric) the series holds
exactly those points in arrival order, with no capacity bound and no
FIFO eviction (the last-50 restriction happens only later, inside
`_calculate_correlation`). -/
theorem C5_series_unbounded_append (device metric : String)
    (pts : List (ℚ × ℚ)) (cd0 : CorrData) :
    seriesOf (pts.foldl
        (fun cd vt => add_data_point cd device metric vt.1 vt.2) cd0) device metric =
      seriesOf cd0 device metric ++ pts.map (fun vt => ⟨vt.1, vt.2⟩) ∧
    (seriesOf (pts.foldl
        (fun cd vt => add_data_point cd device metric vt.1 vt.2) cd0) device metric).length =
      (seriesOf cd0 device metric).length + pts.length := by
  have key : ∀ (ps : List (ℚ × ℚ)) (cd : CorrData),
      seriesOf (ps.foldl (fun c vt => add_data_point c device metric vt.1 vt.2) cd)
          device metric =
        seriesOf cd device metric ++ ps.map (fun vt => ⟨vt.1, vt.2⟩) := by
    intro ps
    induction ps with
    | nil => intro cd; simp
    | cons p rest ih =>
      intro cd
      simp [List.foldl_cons, ih, seriesOf_add_self]
  refine ⟨key pts cd0, ?_⟩
  simp [key pts cd0]

end ClaimC5

section ClaimC9

lemma update_mean_const (s : OnlineStats) (x : ℚ) (h : s.mean = x) :
    (s.update x).mean = x ∧ (s.update x).M2 = s.M2 := by
  simp [OnlineStats.update, h]

/-- Claim C9: feeding any non-empty run of one identical value `x` into
an `OnlineStats` tracker leaves `mean = x` and `M2 = 0` (hence standard
deviation `sqrt (varq) = 0`) after every update: Welford with identical
inputs keeps the sum of squared deviations at zero. -/
theorem C9_identical_values_mean_std (x : ℚ) (k : ℕ) :
    ((List.replicate (k + 1) x).foldl OnlineStats.update {}).mean = x ∧
    ((List.replicate (k + 1) x).foldl OnlineStats.update {}).M2 = 0 ∧
    ((List.replicate (k + 1) x).foldl OnlineStats.update {}).varq = 0 ∧
    Real.sqrt (((List.replicate (k + 1) x).foldl OnlineStats.update {}).varq : ℝ) = 0 := by
  have inv : ∀ (j : ℕ) (s : OnlineStats), s.mean = x → s.M2 = 0 →
      ((List.replicate j x).foldl OnlineStats.update s).mean = x ∧
      ((List.replicate j x).foldl OnlineStats.update s).M2 = 0 := by
    intro j
    induction j with
    | zero => intro s hm hM; simpa using ⟨hm, hM⟩
    | succ j ih =>
      intro s hm hM
      have step := update_mean_const s x hm
      simpa [List.replicate_succ] using ih (s.update x) step.1 (step.2.trans hM)
  have first : (OnlineStats.update {} x).mean = x ∧ (OnlineStats.update {} x).M2 = 0 := by
    constructor <;> simp [OnlineStats.update]
  have main := inv k (OnlineStats.update {} x) first.1 first.2
  have hfold : (List.replicate (k + 1) x).foldl OnlineStats.update {} =
      (List.replicate k x).foldl OnlineStats.update (OnlineStats.update {} x) := by
    simp [List.replicate_succ]
  rw [hfold]
  have hv : ((List.replicate k x).foldl OnlineStats.update
      (OnlineStats.update {} x)).varq = 0 := by
    simp only [OnlineStats.varq, main.2]
    split <;> simp
  refine ⟨main.1, main.2, hv, ?_⟩
  rw [hv]
  simp

end ClaimC9

section ClaimC4

lemma update_health_fp_bounds (now : ℚ) (dev : String) (d : Record) (st : DeviceStats)
    (h : DeviceHealth) (h0 : 0 ≤ h.failure_probability)
    (h9 : h.failure_probability ≤ 9/10) :
    0 ≤ (update_health now dev d st h).failure_probability ∧
    (update_health now dev d st h).failure_probability ≤ 9/10 := by
  show 0 ≤ next_failure_probability _ _ ∧ next_failure_probability _ _ ≤ 9/10
  unfold next_failure_probability
  split
  · exact ⟨le_min (by norm_num) (by linarith), min_le_left _ _⟩
  · exact ⟨le_max_left _ _, max_le (by norm_num) (by linarith)⟩

/-- Claim C4: starting from the defaultdict initial health, over any
sequence of `update_health` calls (any records, any tracker snapshots,
hence any drift magnitudes) `failure_probability` stays inside
`[0, 0.9]`; and each single update moves it by exactly the fixed step —
up by `0.01` saturating at `0.9` when the updated drift rate exceeds
`0.01`, otherwise down by `0.005` saturating at `0`. -/
theorem C4_failure_probability_bounded (now : ℚ) (dev : String)
    (inputs : List (Record × DeviceStats)) :
    (0 ≤ ((inputs.foldl (fun h rs => update_health now dev rs.1 rs.2 h)
        {}).failure_probability) ∧
      (inputs.foldl (fun h rs => update_health now dev rs.1 rs.2 h)
        {}).failure_probability ≤ 9/10) ∧
    (∀ (h : DeviceHealth) (r : Record) (s : DeviceStats),
      (update_health now dev r s h).failure_probability =
        if 1/100 < (update_health now dev r s h).drift_rate then
          min (9/10) (h.failure_probability + 1/100)
        else max 0 (h.failure_probability - 1/200)) := by
  constructor
  · have inv : ∀ (l : List (Record × DeviceStats)) (h : DeviceHealth),
        0 ≤ h.failure_probability → h.failure_probability ≤ 9/10 →
        0 ≤ (l.foldl (fun h rs => update_health now dev rs.1 rs.2 h)
            h).failure_probability ∧
        (l.foldl (fun h rs => update_health now dev rs.1 rs.2 h)
            h).failure_probability ≤ 9/10 := by
      intro l
      induction l with
      | nil => intro h h0 h9; simpa using ⟨h0, h9⟩
      | cons p rest ih =>
        intro h h0 h9
        have step := update_health_fp_bounds now dev p.1 p.2 h h0 h9
        simpa using ih _ step.1 step.2
    exact inv inputs {} (by norm_num) (by norm_num)
  · intro h r s
    simp [update_health, next_failure_probability]

end ClaimC4

section ClaimC1

/-- A payload that is not valid JSON (Python dict syntax with single
quotes) but is accepted by the `eval` fallback of `on_message`. -/
def recC1 : Record := { device := some "b", ts := some 0, voltage := some 1 }

/-- Claim C1 counterexample: a payload that fails JSON parsing but
evaluates as a Python dict literal is NOT dropped — `on_message` coerces
it into a record and updates detector state (here the Welford tracker of
(b, voltage) goes from 0 to 1 samples). -/
theorem C1_counterexample :
    (statsOf (@on_message Unit (fun _ => ()) (fun _ _ => (false, 0)) 0 (fun _ => 0)
        (initialState Unit) (PayloadClass.pythonLiteral recC1)).1 "b").voltage.n = 1 ∧
    (statsOf (initialState Unit) "b").voltage.n = 0 := by
  decide

/-- Claim C1 (amended): only payloads rejected by BOTH decoders — JSON
first, then the `eval` fallback — are logged and dropped with no state
update and no alert; a payload that fails JSON parsing but parses as a
Python dict literal is coerced into a record and processed exactly as a
JSON payload would be. -/
theorem C1_parse_boundary {M : Type} (fit : List (List ℚ) → M)
    (predict : M → List ℚ → Bool × ℚ) (now : ℚ) (pyhash : String → Int)
    (st : AnalyzerState M) :
    on_message fit predict now pyhash st PayloadClass.unparseable = (st, []) ∧
    (∀ r : Record,
      on_message fit predict now pyhash st (PayloadClass.pythonLiteral r) =
        on_message fit predict now pyhash st (PayloadClass.validJson r)) := by
  exact ⟨rfl, fun r => rfl⟩

end ClaimC1

section ClaimC6

/-- A record carrying none of the known metrics. -/
def recNoMetrics : Record := { device := some "x", ts := some 0 }

/-- Claim C6 counterexample: a record with neither `voltage` nor
`current` does NOT yield an empty feature vector — the two temporal
features and the device hash are appended unconditionally, so the
vector has length 3 (and the `len(features) == 0` guard in
`detect_anomaly` is unreachable). -/
theorem C6_counterexample :
    (extract_features 0 (fun _ => 0) recNoMetrics).length = 3 ∧
    (extract_features 0 (fun _ => 0) recNoMetrics).length ≠ 0 := by
  decide

/-- Claim C6 (amended): for a record with no known metrics, extraction
yields a 3-element vector (time-of-day, time-of-hour, device hash); the
record is still buffered, and the detector returns `(false, 0.0)` only
while it is unfitted with the post-append buffer below the warm-up size
of 50 — once fitted, such a record is scored by the model like any
other and can be flagged anomalous. -/
theorem C6_no_metric_record (now : ℚ) (pyhash : String → Int) (r : Record)
    (hv : r.voltage = none) (hc : r.current = none) :
    (extract_features now pyhash r).length = 3 ∧
    (∀ (M : Type) (fit : List (List ℚ) → M) (predict : M → List ℚ → Bool × ℚ)
      (st : DetectorState M), st.is_fitted = false →
      (dequeAppend 100 st.feature_buffer (extract_features now pyhash r)).length < 50 →
      (detect_anomaly fit predict now pyhash st r).2 = (false, 0)) ∧
    (∀ (M : Type) (fit : List (List ℚ) → M) (predict : M → List ℚ → Bool × ℚ)
      (st : DetectorState M),
      (detect_anomaly fit predict now pyhash st r).1.feature_buffer =
        dequeAppend 100 st.feature_buffer (extract_features now pyhash r)) ∧
    (∃ st : DetectorState Unit, st.is_fitted = true ∧
      (detect_anomaly (fun _ => ()) (fun _ _ => (true, 0)) now pyhash st r).2.1 = true) := by
  have hlen : (extract_features now pyhash r).length = 3 := by
    simp [extract_features, hv, hc]
  refine ⟨hlen, ?_, ?_, ?_⟩
  · intro M fit predict st hf hlt
    rw [detect_anomaly_unfitted_small fit predict now pyhash st r hf hlt]
  · intro M fit predict st
    cases hf : st.is_fitted with
    | true => exact (detect_anomaly_fitted fit predict now pyhash st r hf).2.2.1
    | false =>
      by_cases hlt :
          (dequeAppend 100 st.feature_buffer (extract_features now pyhash r)).length < 50
      · rw [detect_anomaly_unfitted_small fit predict now pyhash st r hf hlt]
      · rw [detect_anomaly_unfitted_large fit predict now pyhash st r hf (by omega)]
  · refine ⟨{ is_fitted := true, model := some (), feature_buffer := [] }, rfl, ?_⟩
    have h := detect_anomaly_fitted (fun _ => ()) (fun _ _ => (true, 0)) now pyhash
      { is_fitted := true, model := some (), feature_buffer := [] } r rfl
    rw [h.2.2.2]

end ClaimC6

section ClaimC2

/-- Claim C2: the multivariate detector is a two-state machine — while
UNFITTED and the post-append feature buffer holds fewer than 50
vectors, `detect_anomaly` returns `(false, 0.0)` and stays UNFITTED;
the UNFITTED-to-FITTED transition happens exactly on the call where the
buffer reaches 50, fitting the scaler-and-model pair over the buffer
contents; and once FITTED the model is never refitted (the stored model
is unchanged by every later call). -/
theorem C2_training_state_machine {M : Type} (fit : List (List ℚ) → M)
    (predict : M → List ℚ → Bool × ℚ) (now : ℚ) (pyhash : String → Int)
    (st : DetectorState M) (d : Record) :
    (st.is_fitted = false →
      (dequeAppend 100 st.feature_buffer (extract_features now pyhash d)).length < 50 →
      (detect_anomaly fit predict now pyhash st d).2 = (false, 0) ∧
      (detect_anomaly fit predict now pyhash st d).1.is_fitted = false ∧
      (detect_anomaly fit predict now pyhash st d).1.model = st.model) ∧
    (st.is_fitted = false →
      50 ≤ (dequeAppend 100 st.feature_buffer (extract_features now pyhash d)).length →
      (detect_anomaly fit predict now pyhash st d).1.is_fitted = true ∧
      (detect_anomaly fit predict now pyhash st d).1.model =
        some (fit (dequeAppend 100 st.feature_buffer (extract_features now pyhash d)))) ∧
    (st.is_fitted = true →
      (detect_anomaly fit predict now pyhash st d).1.is_fitted = true ∧
      (detect_anomaly fit predict now pyhash st d).1.model = st.model) := by
  refine ⟨?_, ?_, ?_⟩
  · intro hf hlt
    rw [detect_anomaly_unfitted_small fit predict now pyhash st d hf hlt]
    exact ⟨rfl, hf, rfl⟩
  · intro hf hge
    rw [detect_anomaly_unfitted_large fit predict now pyhash st d hf hge]
    exact ⟨rfl, rfl⟩
  · intro hf
    have h := detect_anomaly_fitted fit predict now pyhash st d hf
    exact ⟨h.1, h.2.1⟩

/-- An unfitted detector whose buffer holds 49 vectors: one more sample
reaches the warm-up size. -/
def detC2 : DetectorState Unit :=
  { is_fitted := false, model := none, feature_buffer := List.replicate 49 [0] }

/-- A fitted detector state. -/
def detC2f : DetectorState Unit :=
  { is_fitted := true, model := some (), feature_buffer := [] }

/-- Witness for C2 at concrete states: a fresh detector stays unfitted
and answers `(false, 0.0)`; a detector with 49 buffered vectors fits on
the next call; a fitted detector keeps its model. -/
theorem C2_training_state_machine_witness :
    (detect_anomaly (fun _ => ()) (fun _ _ => (true, 1)) 0 (fun _ => 0)
      ({} : DetectorState Unit) recNoMetrics).2 = (false, 0) ∧
    (detect_anomaly (fun _ => ()) (fun _ _ => (true, 1)) 0 (fun _ => 0) detC2 recNoMetrics).1.is_fitted
      = true ∧
    (detect_anomaly (fun _ => ()) (fun _ _ => (true, 1)) 0 (fun _ => 0) detC2f recNoMetrics).1.model
      = some () := by
  refine ⟨?_, ?_, ?_⟩
  · exact ((C2_training_state_machine (fun _ => ()) (fun _ _ => (true, 1)) 0 (fun _ => 0)
      {} recNoMetrics).1 rfl (by decide)).1
  · exact ((C2_training_state_machine (fun _ => ()) (fun _ _ => (true, 1)) 0 (fun _ => 0)
      detC2 recNoMetrics).2.1 rfl (by decide)).1
  · exact ((C2_training_state_machine (fun _ => ()) (fun _ _ => (true, 1)) 0 (fun _ => 0)
      detC2f recNoMetrics).2.2 rfl).2

end ClaimC2

section ClaimC8

/-- Claim C8 counterexample: two series of 12 and 13 points whose equal
tails are identical.  The claimed semantics (truncate both tails to a
common count, then Pearson — `calculate_correlation_specTruncated`)
gives a perfect correlation that passes the 0.7 threshold, but the
source returns the literal `0.0` because the two last-50 tails differ
in length; it never truncates to a common count. -/
theorem C8_counterexample :
    10 ≤ ((List.range 12).map (fun i => ({ value := (i : ℚ) + 1, timestamp := 0 } : DataPoint))).length ∧
    10 ≤ ((List.range 13).map (fun i => ({ value := (i : ℚ), timestamp := 0 } : DataPoint))).length ∧
    calculate_correlation
        ((List.range 12).map (fun i => ({ value := (i : ℚ) + 1, timestamp := 0 } : DataPoint)))
        ((List.range 13).map (fun i => ({ value := (i : ℚ), timestamp := 0 } : DataPoint)))
      = PearsonRep.zero ∧
    (calculate_correlation_specTruncated
        ((List.range 12).map (fun i => ({ value := (i : ℚ) + 1, timestamp := 0 } : DataPoint)))
        ((List.range 13).map (fun i => ({ value := (i : ℚ), timestamp := 0 } : DataPoint)))).absGt (7/10)
      = true ∧
    (calculate_correlation
        ((List.range 12).map (fun i => ({ value := (i : ℚ) + 1, timestamp := 0 } : DataPoint)))
        ((List.range 13).map (fun i => ({ value := (i : ℚ), timestamp := 0 } : DataPoint)))).absGt (7/10)
      = false := by
  decide

/-- Claim C8 (amended): the pairwise correlation is the Pearson
coefficient over the last 50 points of each series only when both
series hold at least 10 points and the two last-50 tails happen to have
equal length; when either series has fewer than 10 points, or the two
tails differ in length, the correlation is the literal 0 (which passes
no threshold, hence no alert) — the source never truncates the tails to
a common count. -/
theorem C8_correlation_tail_rules (data1 data2 : List DataPoint) :
    (data1.length < 10 ∨ data2.length < 10 →
      calculate_correlation data1 data2 = PearsonRep.zero) ∧
    (10 ≤ data1.length → 10 ≤ data2.length →
      ((lastN 50 data1).length = (lastN 50 data2).length →
        calculate_correlation data1 data2 =
          pearsonRep ((lastN 50 data1).map (·.value)) ((lastN 50 data2).map (·.value))) ∧
      ((lastN 50 data1).length ≠ (lastN 50 data2).length →
        calculate_correlation data1 data2 = PearsonRep.zero)) ∧
    PearsonRep.zero.absGt (7/10) = false := by
  refine ⟨?_, ?_, by decide⟩
  · intro h
    simp only [calculate_correlation]
    rw [if_pos h]
  · intro h1 h2
    have hno : ¬(data1.length < 10 ∨ data2.length < 10) := by omega
    constructor
    · intro heq
      have heq2 : ¬(((lastN 50 data1).map (·.value)).length ≠
          ((lastN 50 data2).map (·.value)).length) := by
        simpa [List.length_map] using heq
      simp only [calculate_correlation]
      rw [if_neg hno, if_neg heq2]
    · intro hne
      have hne2 : ((lastN 50 data1).map (·.value)).length ≠
          ((lastN 50 data2).map (·.value)).length := by
        simpa [List.length_map] using hne
      simp only [calculate_correlation]
      rw [if_neg hno, if_pos hne2]

/-- Witness for C8 at concrete series: a 5-point series yields the
literal 0, two equal 10-point series yield their Pearson coefficient,
and a 10-point against an 11-point series yields the literal 0. -/
theorem C8_correlation_tail_rules_witness :
    calculate_correlation (List.replicate 5 ({ value := 1, timestamp := 0 } : DataPoint)) (List.replicate 10 ({ value := 1, timestamp := 0 } : DataPoint))
      = PearsonRep.zero ∧
    calculate_correlation (List.replicate 10 ({ value := 1, timestamp := 0 } : DataPoint)) (List.replicate 10 ({ value := 1, timestamp := 0 } : DataPoint))
      = pearsonRep ((lastN 50 (List.replicate 10 ({ value := 1, timestamp := 0 } : DataPoint))).map (·.value))
          ((lastN 50 (List.replicate 10 ({ value := 1, timestamp := 0 } : DataPoint))).map (·.value)) ∧
    calculate_correlation (List.replicate 10 ({ value := 1, timestamp := 0 } : DataPoint)) (List.replicate 11 ({ value := 1, timestamp := 0 } : DataPoint))
      = PearsonRep.zero := by
  refine ⟨?_, ?_, ?_⟩
  · exact (C8_correlation_tail_rules (List.replicate 5 ({ value := 1, timestamp := 0 } : DataPoint))
      (List.replicate 10 ({ value := 1, timestamp := 0 } : DataPoint))).1 (by decide)
  · exact ((C8_correlation_tail_rules (List.replicate 10 ({ value := 1, timestamp := 0 } : DataPoint))
      (List.replicate 10 ({ value := 1, timestamp := 0 } : DataPoint))).2.1 (by decide) (by decide)).1 (by decide)
  · exact ((C8_correlation_tail_rules (List.replicate 10 ({ value := 1, timestamp := 0 } : DataPoint))
      (List.replicate 11 ({ value := 1, timestamp := 0 } : DataPoint))).2.1 (by decide) (by decide)).2 (by decide)

end ClaimC8

section ClaimC7

/-- A 20-sample series: ten `1`s then ten `-1`s (mean 0, variance
sum 20). -/
def xsC7 : List ℚ := List.replicate 10 1 ++ List.replicate 10 (-1)

/-- A 20-sample series equal to `4 * xsC7 + 3 * w` for a `w` orthogonal
to `xsC7`: its Pearson correlation against `xsC7` is exactly 0.8. -/
def ysC7 : List ℚ :=
  List.replicate 5 7 ++ List.replicate 5 1 ++ List.replicate 5 (-1) ++ List.replicate 5 (-7)

/-- 100 voltage samples over five devices: device B carries `ysC7`
(correlation 0.8 against each of the others), devices A, C, D, E carry
identical copies of `xsC7` (pairwise correlation 1.0). -/
def corrInputC7 : List (String × ℚ) :=
  xsC7.map (fun v => ("A", v)) ++ ysC7.map (fun v => ("B", v)) ++
  xsC7.map (fun v => ("C", v)) ++ xsC7.map (fun v => ("D", v)) ++
  xsC7.map (fun v => ("E", v))

/-- The correlator state after ingesting `corrInputC7`. -/
def corrStateC7 : CorrData :=
  corrInputC7.foldl (fun cd dv => add_data_point cd dv.1 "voltage" dv.2 0) []

set_option maxHeartbeats 4000000 in
/-- Claim C7 (code bug): at an aggregate count of 100 samples the
recompute fires, six surviving pairs have correlation exactly 1.0
(`cov = vx = vy = 20`) and four have 0.8 (`cov = 80` with variance
product 10000), yet the emitted `correlations[:5]` list is the first
five in device-iteration order — magnitudes (0.8, 1, 1, 1, 0.8) — and
not the top five by absolute magnitude, although `|0.8| < |1.0|` (last
conjunct, cross-multiplied): the code keeps three of the 0.8 pairs out
of slots that five 1.0 pairs should fill, contradicting the `Top 5
correlations` comment in the source. -/
theorem C7_take5_not_top5 :
    totalSamples corrStateC7 = 100 ∧
    totalSamples corrStateC7 % 100 = 0 ∧
    ((analyze_correlations corrStateC7).take 5).map (fun e => e.correlation) =
      [⟨80, 20, 500⟩, ⟨20, 20, 20⟩, ⟨20, 20, 20⟩, ⟨20, 20, 20⟩, ⟨80, 500, 20⟩] ∧
    ((analyze_correlations corrStateC7).map (fun e => e.correlation)).count ⟨20, 20, 20⟩ = 6 ∧
    (((analyze_correlations corrStateC7).take 5).map (fun e => e.correlation)).count ⟨20, 20, 20⟩ = 3 ∧
    (80 : ℚ) ^ 2 * (20 * 20) < (20 : ℚ) ^ 2 * (20 * 500) := by
  decide

end ClaimC7

section ClaimC6Witness

/-- Witness for C6 at the concrete metric-less record: extraction
yields a 3-element vector and a fresh (unfitted, empty-buffer) detector
answers `(false, 0.0)`. -/
theorem C6_no_metric_record_witness :
    (extract_features 0 (fun _ => 0) recNoMetrics).length = 3 ∧
    (detect_anomaly (fun _ => ()) (fun _ _ => (false, 0)) 0 (fun _ => 0)
      ({} : DetectorState Unit) recNoMetrics).2 = (false, 0) := by
  have h := C6_no_metric_record 0 (fun _ => 0) recNoMetrics rfl rfl
  exact ⟨h.1, h.2.1 Unit (fun _ => ()) (fun _ _ => (false, 0)) {} rfl (by decide)⟩

end ClaimC6Witness

section ClaimC3

/-- The Welford tracker of one (device, metric) right after
incorporating `val` — the snapshot the threshold rules of `on_message`
read (lines 273-283 update the tracker in place before the checks). -/
def postStats {M : Type} (st : AnalyzerState M) (dev : String) (key : MetricKey)
    (val : ℚ) : OnlineStats :=
  ((statsOf st dev).getKey key).update val

lemma real_sqrt_gt_eps_iff (q : ℚ) :
    (1 / 10 ^ 9 : ℝ) < Real.sqrt (q : ℝ) ↔ (1 / 10 ^ 18 : ℚ) < q := by
  constructor
  · intro h
    have hq0 : (0 : ℝ) < (q : ℝ) := by
      by_contra hq
      push_neg at hq
      rw [Real.sqrt_eq_zero'.mpr hq] at h
      norm_num at h
    have hsq : Real.sqrt (q : ℝ) ^ 2 = (q : ℝ) := Real.sq_sqrt hq0.le
    have : ((1 / 10 ^ 18 : ℚ) : ℝ) < (q : ℝ) := by
      push_cast
      nlinarith [Real.sqrt_nonneg (q : ℝ)]
    exact_mod_cast this
  · intro h
    have h' : ((1 / 10 ^ 9 : ℝ)) ^ 2 < (q : ℝ) := by
      have : ((1 / 10 ^ 18 : ℚ) : ℝ) < (q : ℝ) := by exact_mod_cast h
      push_cast at this ⊢
      nlinarith
    calc (1 / 10 ^ 9 : ℝ) = Real.sqrt ((1 / 10 ^ 9 : ℝ) ^ 2) := by
          rw [Real.sqrt_sq (by norm_num)]
      _ < Real.sqrt (q : ℝ) := Real.sqrt_lt_sqrt (by positivity) h'

lemma z_ge_three_iff (q a : ℚ) (hq : (1 / 10 ^ 18 : ℚ) < q) (ha : 0 ≤ a) :
    ((3 : ℝ) ≤ (a : ℝ) / Real.sqrt (q : ℝ)) ↔ 9 * q ≤ a ^ 2 := by
  have hq0 : (0 : ℝ) < (q : ℝ) := by
    have : (0 : ℚ) < q := lt_trans (by norm_num) hq
    exact_mod_cast this
  have hs0 : (0 : ℝ) < Real.sqrt (q : ℝ) := Real.sqrt_pos.mpr hq0
  have hsq : Real.sqrt (q : ℝ) ^ 2 = (q : ℝ) := Real.sq_sqrt hq0.le
  have ha' : (0 : ℝ) ≤ (a : ℝ) := by exact_mod_cast ha
  rw [le_div_iff₀ hs0]
  constructor
  · intro h
    have : (9 : ℝ) * q ≤ (a : ℝ) ^ 2 := by nlinarith
    exact_mod_cast this
  · intro h
    have h' : (9 : ℝ) * (q : ℝ) ≤ (a : ℝ) ^ 2 := by exact_mod_cast h
    nlinarith [hs0, hsq]

lemma statAnomalyFires_iff_real (s : OnlineStats) (val : ℚ) :
    statAnomalyFires s val = true ↔
      (20 < s.n ∧ (1 / 10 ^ 9 : ℝ) < Real.sqrt ((s.varq : ℚ) : ℝ) ∧
        (3 : ℝ) ≤ ((|val - s.mean| : ℚ) : ℝ) / Real.sqrt ((s.varq : ℚ) : ℝ)) := by
  simp only [statAnomalyFires, Bool.and_eq_true, decide_eq_true_eq]
  constructor
  · rintro ⟨⟨hn, hv⟩, hz⟩
    refine ⟨hn, (real_sqrt_gt_eps_iff s.varq).mpr hv, ?_⟩
    rw [z_ge_three_iff s.varq |val - s.mean| hv (abs_nonneg _)]
    calc 9 * s.varq ≤ (val - s.mean) ^ 2 := hz
      _ = |val - s.mean| ^ 2 := (sq_abs _).symm
  · rintro ⟨hn, hv, hz⟩
    have hv' := (real_sqrt_gt_eps_iff s.varq).mp hv
    refine ⟨⟨hn, hv'⟩, ?_⟩
    rw [z_ge_three_iff s.varq |val - s.mean| hv' (abs_nonneg _)] at hz
    calc 9 * s.varq ≤ |val - s.mean| ^ 2 := hz
      _ = (val - s.mean) ^ 2 := sq_abs _

lemma processMetric_some_eq {M : Type} (now : ℚ) (dev : String) (d : Record)
    (key : MetricKey) (st : AnalyzerState M) (al : List Alert) (val t : ℚ)
    (hv : key.get d = some val) (ht : d.ts = some t) :
    processMetric now dev d key ⟨st, al, false⟩ =
      ⟨{ st with
          stats := updAssoc dev (fun ds => ds.setKey key (postStats st dev key val)) {}
            st.stats,
          corr := add_data_point st.corr dev key.name val t },
        al ++
          (if statAnomalyFires (postStats st dev key val) val then
            [Alert.statisticalAnomaly t dev key.name val (postStats st dev key val).mean
              (postStats st dev key val).varq |val - (postStats st dev key val).mean|]
          else []) ++
          (if driftFires (postStats st dev key val) then
            [Alert.drift t dev key.name (postStats st dev key val).slope
              ((postStats st dev key val).ema.getD 0)]
          else []),
        false⟩ := by
  simp only [processMetric, hv, ht, emitWithTs, postStats]
  by_cases h1 : statAnomalyFires (((statsOf st dev).getKey key).update val) val <;>
    by_cases h2 : driftFires (((statsOf st dev).getKey key).update val) <;>
      simp [h1, h2]

/-- Claim C3 (amended): for a record that carries a `ts` timestamp, the
(device, metric) update emits a `statistical_anomaly` alert — carrying
the value, the post-update mean, the standard deviation (as its exact
radicand `varq`, `std = Real.sqrt varq`) and the z-score (as its exact
numerator `abs (val - mean)`, `z = numerator / Real.sqrt varq`) — if
and only if the post-update tracker satisfies `n > 20`, `std > 1e-9`
and `z >= 3.0`; in particular a z-score of exactly 3.0 fires, and a
z-score of 2.999 never fires.  (A record without `ts` can satisfy all
three conditions and still emit nothing: see the counterexample.) -/
theorem C3_statistical_anomaly_iff {M : Type} (now : ℚ) (st : AnalyzerState M)
    (dev : String) (d : Record) (key : MetricKey) (val t : ℚ)
    (ht : d.ts = some t) (hv : key.get d = some val) :
    ((Alert.statisticalAnomaly t dev key.name val (postStats st dev key val).mean
        (postStats st dev key val).varq |val - (postStats st dev key val).mean| ∈
      (processMetric now dev d key ⟨st, [], false⟩).alerts) ↔
      (20 < (postStats st dev key val).n ∧
        (1 / 10 ^ 9 : ℝ) < Real.sqrt (((postStats st dev key val).varq : ℚ) : ℝ) ∧
        (3 : ℝ) ≤ ((|val - (postStats st dev key val).mean| : ℚ) : ℝ) /
          Real.sqrt (((postStats st dev key val).varq : ℚ) : ℝ))) ∧
    (((|val - (postStats st dev key val).mean| : ℚ) : ℝ) /
        Real.sqrt (((postStats st dev key val).varq : ℚ) : ℝ) = 2999 / 1000 →
      Alert.statisticalAnomaly t dev key.name val (postStats st dev key val).mean
        (postStats st dev key val).varq |val - (postStats st dev key val).mean| ∉
      (processMetric now dev d key ⟨st, [], false⟩).alerts) := by
  have hiff : (Alert.statisticalAnomaly t dev key.name val (postStats st dev key val).mean
        (postStats st dev key val).varq |val - (postStats st dev key val).mean| ∈
      (processMetric now dev d key ⟨st, [], false⟩).alerts) ↔
      (20 < (postStats st dev key val).n ∧
        (1 / 10 ^ 9 : ℝ) < Real.sqrt (((postStats st dev key val).varq : ℚ) : ℝ) ∧
        (3 : ℝ) ≤ ((|val - (postStats st dev key val).mean| : ℚ) : ℝ) /
          Real.sqrt (((postStats st dev key val).varq : ℚ) : ℝ)) := by
    rw [processMetric_some_eq now dev d key st [] val t hv ht]
    rw [← statAnomalyFires_iff_real (postStats st dev key val) val]
    constructor
    · intro hmem
      by_cases h1 : statAnomalyFires (postStats st dev key val) val
      · exact h1
      · exfalso
        by_cases h2 : driftFires (postStats st dev key val) <;>
          simp [h1, h2] at hmem
    · intro h1
      simp [h1]
  refine ⟨hiff, ?_⟩
  intro hz hmem
  have h3 := (hiff.mp hmem).2.2
  rw [hz] at h3
  norm_num at h3

end ClaimC3

section ClaimC3Concrete

/-- A voltage tracker with 21 samples, mean 0 and `M2 = 81/7`: one more
sample of `22/7` brings it to `n = 22`, `mean = 1/7`, `varq = 1`, and a
z-score of exactly 3. -/
def statsC3 : OnlineStats :=
  { n := 21, mean := 0, M2 := 81/7, ema := some 0, hist := [] }

/-- Analyzer state holding `statsC3` for device `a`. -/
def stateC3 : AnalyzerState Unit :=
  { stats := [("a", { voltage := statsC3, current := {} })] }

/-- A record with a timestamp whose voltage lands exactly on the
z = 3 boundary of `statsC3`. -/
def recC3 : Record := { device := some "a", ts := some 1, voltage := some (22/7) }

/-- The same boundary record without a `ts` key. -/
def recC3x : Record := { device := some "a", voltage := some (22/7) }

/-- Witness for C3: at the concrete boundary state the z-score is
exactly 3 and the `statistical_anomaly` alert is emitted. -/
theorem C3_statistical_anomaly_iff_witness :
    Alert.statisticalAnomaly 1 "a" "voltage" (22/7)
        (postStats stateC3 "a" MetricKey.voltage (22/7)).mean
        (postStats stateC3 "a" MetricKey.voltage (22/7)).varq
        |22/7 - (postStats stateC3 "a" MetricKey.voltage (22/7)).mean| ∈
      (processMetric 0 "a" recC3 MetricKey.voltage ⟨stateC3, [], false⟩).alerts := by
  apply (C3_statistical_anomaly_iff 0 stateC3 "a" recC3 MetricKey.voltage
    (22/7) 1 rfl rfl).1.mpr
  have hvq : (postStats stateC3 "a" MetricKey.voltage (22/7)).varq = 1 := by decide
  have hm : (postStats stateC3 "a" MetricKey.voltage (22/7)).mean = 1/7 := by decide
  refine ⟨by decide, ?_, ?_⟩
  · rw [hvq, show ((1 : ℚ) : ℝ) = 1 by norm_num, Real.sqrt_one]
    norm_num
  · rw [hvq, hm, show ((1 : ℚ) : ℝ) = 1 by norm_num, Real.sqrt_one,
      show |(22 : ℚ)/7 - 1/7| = 3 by norm_num]
    norm_num

/-- Claim C3 counterexample: the same boundary state fed through a
record WITHOUT a `ts` key satisfies all three firing conditions
(`n > 20`, `std > 1e-9`, `z = 3 >= 3`), yet no alert at all is emitted —
the alert constructor raises `KeyError` on `d["ts"]` and the dispatch
aborts — so the claimed "if and only if" fails for ts-less records. -/
theorem C3_counterexample :
    20 < (postStats stateC3 "a" MetricKey.voltage (22/7)).n ∧
    (1 / 10 ^ 9 : ℝ) <
      Real.sqrt (((postStats stateC3 "a" MetricKey.voltage (22/7)).varq : ℚ) : ℝ) ∧
    (3 : ℝ) ≤ ((|22/7 - (postStats stateC3 "a" MetricKey.voltage (22/7)).mean| : ℚ) : ℝ) /
      Real.sqrt (((postStats stateC3 "a" MetricKey.voltage (22/7)).varq : ℚ) : ℝ) ∧
    MetricKey.voltage.get recC3x = some (22/7) ∧ recC3x.ts = none ∧
    (processMetric 0 "a" recC3x MetricKey.voltage ⟨stateC3, [], false⟩).alerts = [] := by
  have hvq : (postStats stateC3 "a" MetricKey.voltage (22/7)).varq = 1 := by decide
  have hm : (postStats stateC3 "a" MetricKey.voltage (22/7)).mean = 1/7 := by decide
  refine ⟨by decide, ?_, ?_, rfl, rfl, by decide⟩
  · rw [hvq, show ((1 : ℚ) : ℝ) = 1 by norm_num, Real.sqrt_one]
    norm_num
  · rw [hvq, hm, show ((1 : ℚ) : ℝ) = 1 by norm_num, Real.sqrt_one,
      show |(22 : ℚ)/7 - 1/7| = 3 by norm_num]
    norm_num

end ClaimC3Concrete

section ClaimC10

lemma update_health_last_calibration (now : ℚ) (dev : String) (d : Record)
    (stats : DeviceStats) (h : DeviceHealth) :
    (update_health now dev d stats h).last_calibration = h.last_calibration := rfl

lemma generate_recommendations_overdue (now : ℚ) (dev : String) (dr fp : ℚ)
    (hnow : 86400 * calibration_interval dev < now) :
    generate_recommendations now dev dr fp none ≠ [] ∧
    ∃ dys, Recommendation.calibrationOverdue dys ∈
      generate_recommendations now dev dr fp none := by
  have hcond : calibration_interval dev < (now - (0 : ℚ)) / 86400 := by
    rw [lt_div_iff₀ (by norm_num : (0:ℚ) < 86400)]
    linarith
  simp only [generate_recommendations, Option.getD_none]
  rw [if_pos hcond]
  constructor
  · simp
  · exact ⟨Rat.floor ((now - 0) / 86400 - calibration_interval dev), by simp⟩

lemma processMetric_aborted {M : Type} (now : ℚ) (dev : String) (d : Record)
    (key : MetricKey) (o : StepOut M) (t : ℚ) (ht : d.ts = some t) :
    (processMetric now dev d key o).aborted = o.aborted := by
  obtain ⟨st, al, ab⟩ := o
  cases ab with
  | true => simp [processMetric]
  | false =>
    cases hv : key.get d with
    | none => simp [processMetric, hv]
    | some val => rw [processMetric_some_eq now dev d key st al val t hv ht]

lemma processMetric_health {M : Type} (now : ℚ) (dev : String) (d : Record)
    (key : MetricKey) (o : StepOut M) :
    (processMetric now dev d key o).state.health = o.state.health := by
  obtain ⟨st, al, ab⟩ := o
  cases ab with
  | true => simp [processMetric]
  | false =>
    cases hv : key.get d with
    | none => simp [processMetric, hv]
    | some val =>
      cases ht : d.ts with
      | some t => rw [processMetric_some_eq now dev d key st al val t hv ht]
      | none =>
        simp only [processMetric, hv, emitWithTs, ht]
        by_cases h1 : statAnomalyFires (((statsOf st dev).getKey key).update val) val <;>
          by_cases h2 : driftFires (((statsOf st dev).getKey key).update val) <;>
            simp [h1, h2]

lemma aiStep_aborted {M : Type} (fit : List (List ℚ) → M)
    (predict : M → List ℚ → Bool × ℚ) (now : ℚ) (pyhash : String → Int)
    (d : Record) (dev : String) (o : StepOut M) (t : ℚ) (ht : d.ts = some t) :
    (aiStep fit predict now pyhash d dev o).aborted = o.aborted := by
  simp only [aiStep, emitWithTs, ht]
  by_cases hab : o.aborted
  · simp [hab]
  · by_cases hai : (detect_anomaly fit predict now pyhash o.state.detector d).2.1 <;>
      simp [hab, hai]

lemma aiStep_health {M : Type} (fit : List (List ℚ) → M)
    (predict : M → List ℚ → Bool × ℚ) (now : ℚ) (pyhash : String → Int)
    (d : Record) (dev : String) (o : StepOut M) :
    (aiStep fit predict now pyhash d dev o).state.health = o.state.health := by
  simp only [aiStep, emitWithTs]
  by_cases hab : o.aborted
  · simp [hab]
  · by_cases hai : (detect_anomaly fit predict now pyhash o.state.detector d).2.1
    · cases ht : d.ts <;> simp [hab, hai, ht]
    · simp [hab, hai]

lemma maintenanceStep_eq {M : Type} (now : ℚ) (d : Record) (dev : String)
    (o : StepOut M) (t : ℚ) (ht : d.ts = some t) (hab : o.aborted = false)
    (hrecs : (update_health now dev d (statsOf o.state dev)
      (healthOf o.state dev)).recommendations ≠ []) :
    maintenanceStep now d dev o =
      { state :=
          { o.state with
            health :=
              (updAssoc dev
                (fun _ =>
                  update_health now dev d (statsOf o.state dev) (healthOf o.state dev))
                {} o.state.health) },
        alerts :=
          (o.alerts ++
            [Alert.maintenanceRecommendation t dev
              (1 - (update_health now dev d (statsOf o.state dev)
                (healthOf o.state dev)).failure_probability)
              (update_health now dev d (statsOf o.state dev)
                (healthOf o.state dev)).recommendations]),
        aborted := false } := by
  obtain ⟨st, al, ab⟩ := o
  simp only at hab
  subst hab
  simp only [maintenanceStep, emitWithTs, ht] at hrecs ⊢
  simp [hrecs]

lemma maintenanceStep_health_cases {M : Type} (now : ℚ) (d : Record) (dev : String)
    (o : StepOut M) :
    (maintenanceStep now d dev o).state.health = o.state.health ∨
    (maintenanceStep now d dev o).state.health =
      updAssoc dev
        (fun _ => update_health now dev d (statsOf o.state dev) (healthOf o.state dev))
        {} o.state.health := by
  simp only [maintenanceStep, emitWithTs]
  by_cases hab : o.aborted
  · left; simp [hab]
  · right
    by_cases hrecs : (update_health now dev d (statsOf o.state dev)
        (healthOf o.state dev)).recommendations ≠ []
    · cases ht : d.ts <;> simp [hab, hrecs, ht]
    · simp [hab, hrecs]

lemma maintenanceStep_lastCal {M : Type} (now : ℚ) (d : Record) (dev : String)
    (o : StepOut M) (dev2 : String)
    (hlc : ∀ d2, (healthOf o.state d2).last_calibration = none) :
    (healthOf (maintenanceStep now d dev o).state dev2).last_calibration = none := by
  rcases maintenanceStep_health_cases now d dev o with hcase | hcase
  · simp only [healthOf, hcase]
    exact hlc dev2
  · by_cases hd : dev2 = dev
    · subst hd
      simp only [healthOf, hcase, assocFind_updAssoc_self, Option.getD_some,
        update_health_last_calibration]
      exact hlc _
    · simp only [healthOf, hcase, assocFind_updAssoc_other dev dev2 _ _ _ hd]
      exact hlc dev2

lemma correlationStep_state {M : Type} (d : Record) (o : StepOut M) :
    (correlationStep d o).state = o.state := by
  simp only [correlationStep, emitWithTs]
  by_cases hab : o.aborted
  · simp [hab]
  · by_cases h100 : totalSamples o.state.corr % 100 = 0
    · by_cases hcs : analyze_correlations o.state.corr ≠ []
      · cases ht : d.ts <;> simp [hab, h100, hcs, ht]
      · simp [hab, h100, hcs]
    · simp [hab, h100]

lemma correlationStep_mem {M : Type} (d : Record) (o : StepOut M) (a : Alert)
    (ha : a ∈ o.alerts) : a ∈ (correlationStep d o).alerts := by
  simp only [correlationStep, emitWithTs]
  by_cases hab : o.aborted
  · simp [hab, ha]
  · by_cases h100 : totalSamples o.state.corr % 100 = 0
    · by_cases hcs : analyze_correlations o.state.corr ≠ []
      · cases ht : d.ts <;> simp [hab, h100, hcs, ht, ha]
      · simp [hab, h100, hcs, ha]
    · simp [hab, h100, ha]

end ClaimC10

section ClaimC10Main

lemma processRecord_lastCal {M : Type} (fit : List (List ℚ) → M)
    (predict : M → List ℚ → Bool × ℚ) (now : ℚ) (pyhash : String → Int)
    (st : AnalyzerState M) (d : Record) (dev : String)
    (hlc : ∀ d2, (healthOf st d2).last_calibration = none) :
    (healthOf (processRecord fit predict now pyhash st d).1 dev).last_calibration = none := by
  simp only [processRecord]
  rw [correlationStep_state]
  apply maintenanceStep_lastCal
  intro d2
  simp only [healthOf, aiStep_health, processMetric_health]
  exact hlc d2

/-- Claim C10 (amended): `last_calibration` starts as `None` for every
device, no operation ever assigns it (`update_health` preserves it and
every `on_message` dispatch keeps it `None` for every device), and for
every successfully parsed record carrying a `ts` timestamp, processed
at a wall-clock time more than the device calibration interval after
the epoch, `update_health` returns a non-empty recommendations list
containing a calibration-overdue entry and a
`maintenance_recommendation` alert is published and logged for the
record.  (A parsed record without `ts` still gets the non-empty
recommendations, but the alert constructor raises on `d["ts"]` and
nothing is published: see the counterexample.) -/
theorem C10_maintenance_alert_always {M : Type} (fit : List (List ℚ) → M)
    (predict : M → List ℚ → Bool × ℚ) (now : ℚ) (pyhash : String → Int) :
    (∀ dev, (healthOf (initialState M) dev).last_calibration = none) ∧
    (∀ (dev : String) (d : Record) (stats : DeviceStats) (h : DeviceHealth),
      (update_health now dev d stats h).last_calibration = h.last_calibration) ∧
    (∀ (dev : String) (d : Record) (stats : DeviceStats) (h : DeviceHealth),
      h.last_calibration = none → 86400 * calibration_interval dev < now →
      (update_health now dev d stats h).recommendations ≠ [] ∧
      ∃ dys, Recommendation.calibrationOverdue dys ∈
        (update_health now dev d stats h).recommendations) ∧
    (∀ (st : AnalyzerState M) (p : PayloadClass) (dev : String),
      (∀ d2, (healthOf st d2).last_calibration = none) →
      (healthOf (on_message fit predict now pyhash st p).1 dev).last_calibration = none) ∧
    (∀ (st : AnalyzerState M) (d : Record) (t : ℚ),
      d.ts = some t →
      (healthOf st (d.device.getD "unknown")).last_calibration = none →
      86400 * calibration_interval (d.device.getD "unknown") < now →
      ∃ recs : List Recommendation, recs ≠ [] ∧
        (∃ dys, Recommendation.calibrationOverdue dys ∈ recs) ∧
        ∃ hs, Alert.maintenanceRecommendation t (d.device.getD "unknown") hs recs ∈
          (on_message fit predict now pyhash st (PayloadClass.validJson d)).2) := by
  have hoverdue : ∀ (dev : String) (d : Record) (stats : DeviceStats) (h : DeviceHealth),
      h.last_calibration = none → 86400 * calibration_interval dev < now →
      (update_health now dev d stats h).recommendations ≠ [] ∧
      ∃ dys, Recommendation.calibrationOverdue dys ∈
        (update_health now dev d stats h).recommendations := by
    intro dev d stats h hlc hnow
    have : (update_health now dev d stats h).recommendations =
        generate_recommendations now dev
          (next_drift_rate d stats h)
          (next_failure_probability (next_drift_rate d stats h) h.failure_probability)
          h.last_calibration := rfl
    rw [this, hlc]
    exact generate_recommendations_overdue now dev _ _ hnow
  refine ⟨fun dev => rfl, fun dev d stats h => rfl, hoverdue, ?_, ?_⟩
  · intro st p dev hlc
    cases p with
    | validJson d => exact processRecord_lastCal fit predict now pyhash st d dev hlc
    | pythonLiteral d => exact processRecord_lastCal fit predict now pyhash st d dev hlc
    | unparseable => exact hlc dev
  · intro st d t ht hlc hnow
    simp only [on_message, parsePayload, processRecord]
    set dev := d.device.getD "unknown" with hdev
    set o2 := processMetric now dev d MetricKey.current
      (processMetric now dev d MetricKey.voltage ⟨st, [], false⟩) with ho2
    set o3 := aiStep fit predict now pyhash d dev o2 with ho3
    have h2ab : o2.aborted = false := by
      rw [ho2, processMetric_aborted now dev d _ _ t ht,
        processMetric_aborted now dev d _ _ t ht]
    have h3ab : o3.aborted = false := by
      rw [ho3, aiStep_aborted fit predict now pyhash d dev o2 t ht]
      exact h2ab
    have h3h : o3.state.health = st.health := by
      rw [ho3, aiStep_health, ho2, processMetric_health, processMetric_health]
    have hlc3 : (healthOf o3.state dev).last_calibration = none := by
      simp only [healthOf, h3h]
      exact hlc
    have hrecs := hoverdue dev d (statsOf o3.state dev) (healthOf o3.state dev) hlc3 hnow
    rw [maintenanceStep_eq now d dev o3 t ht h3ab hrecs.1]
    refine ⟨(update_health now dev d (statsOf o3.state dev)
        (healthOf o3.state dev)).recommendations, hrecs.1, hrecs.2,
      1 - (update_health now dev d (statsOf o3.state dev)
        (healthOf o3.state dev)).failure_probability, ?_⟩
    apply correlationStep_mem
    simp

end ClaimC10Main

section ClaimC10Concrete

/-- A parsed record with a timestamp and no metrics. -/
def recC10t : Record := { device := some "a", ts := some 5 }

/-- The same record without a `ts` key. -/
def recC10 : Record := { device := some "a" }

/-- Witness for C10 at a concrete input: at wall-clock time 61 days
(device interval 60 days), `update_health` returns a non-empty
recommendation list, and a full `on_message` dispatch of a ts-carrying
record publishes a `maintenance_recommendation` alert with a
calibration-overdue entry. -/
theorem C10_maintenance_alert_always_witness :
    (update_health (86400 * 61) "a" recC10t {} {}).recommendations ≠ [] ∧
    ∃ recs : List Recommendation, recs ≠ [] ∧
      (∃ dys, Recommendation.calibrationOverdue dys ∈ recs) ∧
      ∃ hs, Alert.maintenanceRecommendation 5 (recC10t.device.getD "unknown") hs recs ∈
        (on_message (fun _ => ()) (fun _ _ => (false, 0)) (86400 * 61) (fun _ => 0)
          (initialState Unit) (PayloadClass.validJson recC10t)).2 := by
  have H := @C10_maintenance_alert_always Unit (fun _ => ()) (fun _ _ => (false, 0))
    (86400 * 61) (fun _ => 0)
  constructor
  · exact (H.2.2.1 "a" recC10t {} {} rfl (by decide)).1
  · exact H.2.2.2.2 (initialState Unit) recC10t 5 rfl rfl (by decide)

set_option maxHeartbeats 1000000 in
/-- Claim C10 counterexample: the successfully parsed record
`{"device": "a"}` (no `ts`) processed at the realistic wall-clock time
1700000000 — far beyond every calibration interval — makes
`update_health` return a non-empty recommendations list, yet the
dispatch publishes and logs NO alert at all: the
`maintenance_recommendation` dict literal reads `d["ts"]`, the
`KeyError` is swallowed by the outer handler and the alert is lost. -/
theorem C10_counterexample :
    (update_health 1700000000 "a" recC10 {} {}).recommendations ≠ [] ∧
    (on_message (fun _ => ()) (fun _ _ => (false, 0)) 1700000000 (fun _ => 0)
      (initialState Unit) (PayloadClass.validJson recC10)).2 = [] := by
  decide

end ClaimC10Concrete

end LabOS
